import Mathlib

/-!
Shallow embedding of the invoice-dashboard core (route guard, credentials
authenticator, invoice mutation actions) and proofs of the specification
claims about it.

Sources embedded:
* `auth.config`'s `authorized` callback (route guard);
* `auth.ts`'s `getUser` and the credentials provider's `authorize`;
* `app/lib/actions.ts`'s `createInvoice`, `updateInvoice`, `deleteInvoice`,
  `authenticate` and the zod `FormSchema` they validate with.

Host/library primitives that live outside the repository (the zod `email()`
regex, `bcrypt.compare`, the JS `Number()` coercion) are modelled as
explicit parameters or as small Lean functions restricted to the inputs the
claims need, as documented on each definition.
-/

namespace Dashboard

/-! ### Route guard (`auth.config`'s `authorized` callback)

The callback returns `true` (let the request through), `false` (the
framework redirects to the configured sign-in page `/login`), or a
`Response.redirect` to a target URL.  We reify the three outcomes.
-/

/-- Outcome of the `authorized` middleware callback: `allow` is `return true`,
`deny` is `return false` (the framework then redirects to `signInPage`), and
`redirectTo t` is `return Response.redirect(new URL(t, nextUrl))`. -/
inductive GuardDecision where
  | allow
  | deny
  | redirectTo (target : String)
deriving DecidableEq, Repr

/-- `pages.signIn` from `auth.config`: where a `deny` sends the user. -/
def signInPage : String := "/login"

/-- JS `String.prototype.startsWith`, modelled as a prefix test on the
character sequence of the string. -/
def strStartsWith (s p : String) : Bool := p.data.isPrefixOf s.data

/-- The `authorized` callback from `auth.config`:
`isLoggedIn := !!auth?.user`, `isOnDashboard := nextUrl.pathname.startsWith('/dashboard')`;
on the dashboard it allows exactly the logged-in, otherwise a logged-in user
is redirected to `/dashboard` and an anonymous one is let through. -/
def authorized (isLoggedIn : Bool) (pathname : String) : GuardDecision :=
  let isOnDashboard := strStartsWith pathname "/dashboard"
  if isOnDashboard then
    if isLoggedIn then .allow else .deny
  else if isLoggedIn then .redirectTo "/dashboard"
  else .allow

/-! ### Credentials authenticator (`auth.ts` and `actions.ts`'s `authenticate`) -/

/-- A row of the `users` table (`definitions.ts`'s `User`): the `password`
field holds the bcrypt hash. -/
structure User where
  id : String
  name : String
  email : String
  password : String
deriving DecidableEq, Repr

/-- `getUser(email)` on a reachable store: the first row of
`SELECT * FROM users WHERE email=${email}` (`user.rows[0]`), `none` when no
row matches. -/
def getUser (store : List User) (email : String) : Option User :=
  (store.filter fun u => u.email == email).head?

/-- zod's `.min(6)` bound on the submitted password. -/
def passwordMinLength : Nat := 6

/-- The shape check `z.object({ email: z.string().email(), password: z.string().min(6) }).safeParse`.
The `email()` syntax test is a library regex outside the repository, so it is
a parameter `emailValid`; the password check is a length bound. -/
def credentialsShapeOk (emailValid : String → Bool) (email password : String) : Bool :=
  emailValid email && decide (passwordMinLength ≤ password.length)

/-- What the `authorize` callback produces, seen through next-auth:
`ok (some u)` is a returned user (a session is issued), `ok none` is a
returned `null` (next-auth raises a `CredentialsSignin` error), and
`storeFault` is `getUser` throwing `Failed to fetch user.` (next-auth wraps
it in a non-credentials `AuthError`). -/
inductive AuthorizeOutcome where
  | ok (user : Option User)
  | storeFault
deriving DecidableEq, Repr

/-- The credentials provider's `authorize` from `auth.ts`, instrumented with
the number of `getUser` store lookups it performs (second component).
`bcompare` stands for `bcrypt.compare`, a library primitive; `storeUp` is
whether the user-store round-trip succeeds; a failed shape check returns
`null` without ever touching the store. -/
def authorize (emailValid : String → Bool) (bcompare : String → String → Bool)
    (storeUp : Bool) (store : List User) (email password : String) :
    AuthorizeOutcome × Nat :=
  if credentialsShapeOk emailValid email password then
    if storeUp then
      match getUser store email with
      | none => (.ok none, 1)
      | some user =>
          (if bcompare password user.password then .ok (some user) else .ok none, 1)
    else (.storeFault, 1)
  else (.ok none, 0)

/-- The outcome `authenticate` in `actions.ts` surfaces to the caller:
a session for the returned user, the unified `Invalid Credentials` message
for a `CredentialsSignin` error, or `Something went wrong.` for any other
`AuthError` (e.g. the store being unreachable). -/
inductive AuthOutcome where
  | session (u : User)
  | invalidCredentials
  | unexpectedError
deriving DecidableEq, Repr

/-- `authenticate(prevState, formData)` from `actions.ts`: it calls
`signIn('credentials', formData)`, which runs `authorize`; `null` from
`authorize` becomes `CredentialsSignin` and hence `Invalid Credentials`,
a thrown store fault becomes a non-credentials `AuthError` and hence
`Something went wrong.`, and a returned user yields a session. -/
def authenticate (emailValid : String → Bool) (bcompare : String → String → Bool)
    (storeUp : Bool) (store : List User) (email password : String) : AuthOutcome :=
  match (authorize emailValid bcompare storeUp store email password).1 with
  | .ok (some u) => .session u
  | .ok none => .invalidCredentials
  | .storeFault => .unexpectedError

/-! ### Form validation (`actions.ts`'s zod `FormSchema` without `id`/`date`)

`formData.get(name)` yields a string or `null`, modelled as `Option String`.
`CreateInvoice = UpdateInvoice = FormSchema.omit({id, date})` checks:
* `customerId : z.string()` — fails on `null` with message
  `Please select a customer`;
* `amount : z.coerce.number().gt(0)` — coerces with JS `Number()`
  (`null` and the empty string coerce to `0`), fails on `NaN`, and on a
  number not strictly greater than `0` fails with
  `Please enter an amount greater than $0.`;
* `status : z.enum(['pending','paid'])` — fails on anything else with
  message `Please select an invoice status`.
-/

/-- The closed `status` enumeration of `FormSchema`. -/
inductive Status where
  | pending
  | paid
deriving DecidableEq, Repr

/-- The numeric value of a list of decimal digit characters. -/
def digitsToNat (cs : List Char) : Nat :=
  cs.foldl (fun a c => a * 10 + (c.toNat - 48)) 0

/-- The exact value of an unsigned decimal literal — digits with an optional
fractional part — as the rational `intPart + frac / 10 ^ digits(frac)`;
`none` models `NaN`. -/
def parseUnsigned (cs : List Char) : Option ℚ :=
  let intPart := cs.takeWhile Char.isDigit
  let tail := cs.dropWhile Char.isDigit
  match tail with
  | [] => if intPart.isEmpty then none else some (Rat.divInt (digitsToNat intPart) 1)
  | '.' :: frac =>
      if frac.all Char.isDigit && !(intPart.isEmpty && frac.isEmpty) then
        some (Rat.divInt (digitsToNat intPart * 10 ^ frac.length + digitsToNat frac)
          (10 ^ frac.length))
      else none
  | _ => none

/-- JS `Number()` on a (pre-trimmed) plain decimal literal: optional sign,
then digits with an optional fractional part; `none` models `NaN`.  Exotic
JS numeric syntaxes (exponents, hex, `Infinity`) are outside the model. -/
def parseDecimal (s : String) : Option ℚ :=
  match s.data with
  | '-' :: r => (parseUnsigned r).map Neg.neg
  | '+' :: r => parseUnsigned r
  | r => parseUnsigned r

/-- `z.coerce.number()`'s input conversion, i.e. JS `Number(value)` on a form
field: `Number(null) = 0`, `Number('') = 0`, otherwise the decimal literal
value; `none` models `NaN` (which `z.number()` rejects). -/
def jsNumber : Option String → Option ℚ
  | none => some 0
  | some s => if s.data.isEmpty then some 0 else parseDecimal s

/-- `z.enum(['pending','paid'])`: exact match on the two literals. -/
def parseStatus : Option String → Option Status
  | some "pending" => some Status.pending
  | some "paid" => some Status.paid
  | _ => none

/-- The raw form fields the actions read with `formData.get`. -/
structure InvoiceForm where
  customerId : Option String
  amount : Option String
  status : Option String
deriving DecidableEq, Repr

/-- The `validatedFields.data` record of a successful parse. -/
structure ParsedInvoice where
  customerId : String
  amount : ℚ
  status : Status
deriving DecidableEq, Repr

/-- `validatedFields.error.flatten().fieldErrors`: per-field message lists
(a field with no issue contributes an empty list). -/
structure FieldErrors where
  customerId : List String
  amount : List String
  status : List String
deriving DecidableEq, Repr

/-- The `customerId` issues of a parse: `z.string()` only rejects a missing
(`null`) value, with the configured `invalid_type_error`. -/
def customerIdErrors : Option String → List String
  | some _ => []
  | none => ["Please select a customer"]

/-- The `amount` issues of a parse: `NaN` fails the number check, a number
not strictly greater than zero fails `.gt(0)`. -/
def amountErrors (v : Option String) : List String :=
  match jsNumber v with
  | none => ["Expected number, received nan"]
  | some q => if 0 < q then [] else ["Please enter an amount greater than $0."]

/-- The `status` issues of a parse: anything but the two enum literals fails
with the configured `invalid_type_error`. -/
def statusErrors (v : Option String) : List String :=
  match parseStatus v with
  | some _ => []
  | none => ["Please select an invoice status"]

/-- All field errors of one parse, as zod collects them. -/
def fieldErrorsOf (f : InvoiceForm) : FieldErrors :=
  ⟨customerIdErrors f.customerId, amountErrors f.amount, statusErrors f.status⟩

/-- Result of `CreateInvoice.safeParse` / `UpdateInvoice.safeParse`. -/
inductive ParseOutcome where
  | failure (e : FieldErrors)
  | success (d : ParsedInvoice)
deriving DecidableEq, Repr

/-- `safeParse` of the omit-schema on the three form fields: success exactly
when every field check passes, otherwise the collected field errors. -/
def safeParseInvoice (f : InvoiceForm) : ParseOutcome :=
  match f.customerId, jsNumber f.amount, parseStatus f.status with
  | some c, some q, some st =>
      if 0 < q then .success ⟨c, q, st⟩ else .failure (fieldErrorsOf f)
  | _, _, _ => .failure (fieldErrorsOf f)

/-! ### Invoice store and the three mutation actions -/

/-- A row of the `invoices` table as the actions write it.  The `amount`
column holds whatever value the action sends (`amount * 100`, a rational in
the model); the action itself applies no rounding. -/
structure InvoiceRow where
  id : String
  customer_id : String
  amount : ℚ
  status : Status
  date : String
deriving DecidableEq, Repr

/-- The invoices table. -/
structure DB where
  invoices : List InvoiceRow
deriving DecidableEq, Repr

/-- Observable side effects of an action: `revalidatePath(p)` and
`redirect(p)` (the latter also ends the action by throwing). -/
inductive Effect where
  | revalidate (path : String)
  | redirectTo (path : String)
deriving DecidableEq, Repr

/-- How an action invocation ends: `returned e m` is a returned `State`
value `{errors?, message?}`, `navigated p` is a `redirect(p)` unwinding the
action. -/
inductive ActionResult where
  | returned (errors : Option FieldErrors) (message : Option String)
  | navigated (path : String)
deriving DecidableEq, Repr

/-- `new Date().toISOString().split('T')[0]`: the date-only part of an ISO
timestamp, i.e. the characters before the first `T`. -/
def dateOnly (iso : String) : String := ⟨iso.data.takeWhile fun c => c ≠ 'T'⟩

/-- `createInvoice(prevState, formData)` from `actions.ts`.  `storeOk` is
whether the parameterized `INSERT` round-trip succeeds; `newId` is the row
identifier the store generates; `nowISO` is `new Date().toISOString()`.
Returns the store after the call, the effects performed in order, and how
the invocation ended. -/
def createInvoice (db : DB) (storeOk : Bool) (newId nowISO : String)
    (f : InvoiceForm) : DB × List Effect × ActionResult :=
  match safeParseInvoice f with
  | .failure e =>
      (db, [], .returned (some e) (some "Missing Fields. Failed to Create Invoice"))
  | .success d =>
      let amountInCents := d.amount * 100
      let date := dateOnly nowISO
      if storeOk then
        ({ invoices := db.invoices ++ [⟨newId, d.customerId, amountInCents, d.status, date⟩] },
         [.revalidate "/dashboard/invoices", .redirectTo "/dashboard/invoices"],
         .navigated "/dashboard/invoices")
      else
        (db, [], .returned none (some "Database Error: Failed to Create Invoice"))

/-- The row transformation of the `UPDATE ... SET customer_id, amount, status`
statement on a matched row. -/
def applyUpdate (r : InvoiceRow) (c : String) (a : ℚ) (s : Status) : InvoiceRow :=
  { r with customer_id := c, amount := a, status := s }

/-- `updateInvoice(id, prevState, formData)` from `actions.ts`: identical
validation, then `UPDATE invoices SET ... WHERE id = ${id}` (every row whose
id matches is rewritten; zero matches is not distinguished from success),
then revalidate and redirect. -/
def updateInvoice (db : DB) (storeOk : Bool) (id : String)
    (f : InvoiceForm) : DB × List Effect × ActionResult :=
  match safeParseInvoice f with
  | .failure e =>
      (db, [], .returned (some e) (some "Missing Fields. Failed to Update Invoice."))
  | .success d =>
      let amountInCents := d.amount * 100
      if storeOk then
        ({ invoices := db.invoices.map fun r =>
             if r.id == id then applyUpdate r d.customerId amountInCents d.status else r },
         [.revalidate "/dashboard/invoices", .redirectTo "/dashboard/invoices"],
         .navigated "/dashboard/invoices")
      else
        (db, [], .returned none (some "Database Error: Failed to Update Invoice."))

/-- `deleteInvoice(id)` from `actions.ts`: `DELETE FROM invoices WHERE id = ${id}`
then `revalidatePath` then a success message, all inside one `try`; if the
delete throws, the `catch` returns the generic message (and the revalidate
inside the `try` never runs). -/
def deleteInvoice (db : DB) (storeOk : Bool) (id : String) :
    DB × List Effect × ActionResult :=
  if storeOk then
    ({ invoices := db.invoices.filter fun r => !(r.id == id) },
     [.revalidate "/dashboard/invoices"],
     .returned none (some "Deleted Invoice"))
  else
    (db, [], .returned none (some "Database Error: Failed to Delete Invoice."))

/-! ### Concrete fixtures used by the witness theorems -/

/-- Fixture email-syntax check standing in for the zod `email()` regex on the
fixture inputs: accepts any string containing an `@`. -/
def evW : String → Bool := fun e => e.data.contains '@'

/-- Fixture `bcrypt.compare`: the stored hash of `p` is `p ++ "#hash"`. -/
def bcW : String → String → Bool := fun p h => (p ++ "#hash") == h

/-- Fixture user row. -/
def userW : User := ⟨"u1", "Admin", "user@nextmail.com", "123456#hash"⟩

/-- Fixture users table. -/
def storeW : List User := [userW]

/-- Fixture create/update form with amount `54.37`. -/
def f54 : InvoiceForm := ⟨some "c1", some "54.37", some "paid"⟩

/-- The parse of `f54`: `54.37` is exactly `5437 / 100`. -/
def d54 : ParsedInvoice := ⟨"c1", Rat.divInt 5437 100, Status.paid⟩

/-- Fixture form with integer amount `12`. -/
def f12 : InvoiceForm := ⟨some "c2", some "12", some "pending"⟩

/-- The parse of `f12`. -/
def d12 : ParsedInvoice := ⟨"c2", Rat.divInt 12 1, Status.pending⟩

/-- Fixture ISO timestamp. -/
def isoW : String := "2026-10-12T08:30:00.000Z"

/-- Fixture invoice row. -/
def rowW : InvoiceRow := ⟨"i1", "c1", Rat.divInt 5437 100, Status.paid, "2026-10-12"⟩

end Dashboard

namespace Dashboard

/-! ## Claims about the route guard -/

/-- Claim C3: the route guard implements exactly the four-case policy — a
path under the protected `/dashboard` prefix with no session is denied (the
framework then redirects to the login page), a protected path with a session
is allowed, a non-protected path with a session is redirected to the
dashboard root, and a non-protected path with no session is allowed
unchanged. -/
theorem guard_four_case_policy (sess : Bool) (path : String) :
    (strStartsWith path "/dashboard" = true → sess = false →
        authorized sess path = GuardDecision.deny)
  ∧ (strStartsWith path "/dashboard" = true → sess = true →
        authorized sess path = GuardDecision.allow)
  ∧ (strStartsWith path "/dashboard" = false → sess = true →
        authorized sess path = GuardDecision.redirectTo "/dashboard")
  ∧ (strStartsWith path "/dashboard" = false → sess = false →
        authorized sess path = GuardDecision.allow) := by
  unfold authorized
  cases h : strStartsWith path "/dashboard" <;> cases sess <;> simp [h]

/-- Witness for C3: each of the four cases of the policy at a concrete
(session, path) pair. -/
theorem guard_four_case_policy_witness :
    (strStartsWith "/dashboard/invoices" "/dashboard" = true
      ∧ authorized false "/dashboard/invoices" = GuardDecision.deny)
  ∧ authorized true "/dashboard/invoices" = GuardDecision.allow
  ∧ (strStartsWith "/login" "/dashboard" = false
      ∧ authorized true "/login" = GuardDecision.redirectTo "/dashboard")
  ∧ authorized false "/" = GuardDecision.allow :=
  ⟨⟨by decide, (guard_four_case_policy false "/dashboard/invoices").1 (by decide) rfl⟩,
   (guard_four_case_policy true "/dashboard/invoices").2.1 (by decide) rfl,
   ⟨by decide, (guard_four_case_policy true "/login").2.2.1 (by decide) rfl⟩,
   (guard_four_case_policy false "/").2.2.2 (by decide) rfl⟩

/-- Claim C9: protected-path matching is raw string-prefix matching on
`/dashboard` — every path whose characters begin with `/dashboard`,
including paths like `/dashboard-reports` that are not inside the dashboard
route segment, is treated as protected: allowed with a session and denied
without one. -/
theorem guard_prefix_matching_is_raw (path : String)
    (h : strStartsWith path "/dashboard" = true) :
    authorized true path = GuardDecision.allow
  ∧ authorized false path = GuardDecision.deny := by
  unfold authorized
  simp [h]

/-- Witness for C9: the paths `/dashboard-reports` and `/dashboardx` lie
outside the dashboard route segment yet are treated as protected. -/
theorem guard_prefix_matching_is_raw_witness :
    (strStartsWith "/dashboard-reports" "/dashboard" = true
      ∧ authorized true "/dashboard-reports" = GuardDecision.allow
      ∧ authorized false "/dashboard-reports" = GuardDecision.deny)
  ∧ (strStartsWith "/dashboardx" "/dashboard" = true
      ∧ authorized false "/dashboardx" = GuardDecision.deny) :=
  ⟨⟨by decide, (guard_prefix_matching_is_raw "/dashboard-reports" (by decide)).1,
    (guard_prefix_matching_is_raw "/dashboard-reports" (by decide)).2⟩,
   ⟨by decide, (guard_prefix_matching_is_raw "/dashboardx" (by decide)).2⟩⟩

/-! ## Claims about the authenticator -/

/-- Claim C1: authentication failure is non-distinguishable across root
causes — for every submitted credential pair, a syntactically invalid shape,
a nonexistent email, and a correct email with a wrong password all surface
the identical `invalid-credentials` outcome, while a correct email with the
correct password yields a session. -/
theorem auth_failure_nondistinguishable (emailValid : String → Bool)
    (bcompare : String → String → Bool) (store : List User)
    (email password : String) :
    (credentialsShapeOk emailValid email password = false →
        authenticate emailValid bcompare true store email password
          = AuthOutcome.invalidCredentials)
  ∧ (getUser store email = none →
        authenticate emailValid bcompare true store email password
          = AuthOutcome.invalidCredentials)
  ∧ (∀ u, getUser store email = some u → bcompare password u.password = false →
        authenticate emailValid bcompare true store email password
          = AuthOutcome.invalidCredentials)
  ∧ (∀ u, credentialsShapeOk emailValid email password = true →
        getUser store email = some u → bcompare password u.password = true →
        authenticate emailValid bcompare true store email password
          = AuthOutcome.session u) := by
  unfold authenticate authorize
  refine ⟨fun hs => by simp [hs], ?_, ?_, ?_⟩
  · intro hu
    cases hs : credentialsShapeOk emailValid email password <;> simp [hs, hu]
  · intro u hu hb
    cases hs : credentialsShapeOk emailValid email password <;> simp [hs, hu, hb]
  · intro u hs hu hb
    simp [hs, hu, hb]

/-- Witness for C1: on the fixture store, a short password, an unknown
email, and a wrong password each yield `invalidCredentials`, and the correct
pair yields a session for the stored user. -/
theorem auth_failure_nondistinguishable_witness :
    (credentialsShapeOk evW "user@nextmail.com" "123" = false
      ∧ authenticate evW bcW true storeW "user@nextmail.com" "123"
          = AuthOutcome.invalidCredentials)
  ∧ (getUser storeW "ghost@nextmail.com" = none
      ∧ authenticate evW bcW true storeW "ghost@nextmail.com" "123456"
          = AuthOutcome.invalidCredentials)
  ∧ (getUser storeW "user@nextmail.com" = some userW
      ∧ bcW "999999" userW.password = false
      ∧ authenticate evW bcW true storeW "user@nextmail.com" "999999"
          = AuthOutcome.invalidCredentials)
  ∧ (credentialsShapeOk evW "user@nextmail.com" "123456" = true
      ∧ bcW "123456" userW.password = true
      ∧ authenticate evW bcW true storeW "user@nextmail.com" "123456"
          = AuthOutcome.session userW) :=
  ⟨⟨by decide,
    (auth_failure_nondistinguishable evW bcW storeW "user@nextmail.com" "123").1
      (by decide)⟩,
   ⟨by decide,
    (auth_failure_nondistinguishable evW bcW storeW "ghost@nextmail.com" "123456").2.1
      (by decide)⟩,
   ⟨by decide, by decide,
    (auth_failure_nondistinguishable evW bcW storeW "user@nextmail.com" "999999").2.2.1
      userW (by decide) (by decide)⟩,
   ⟨by decide, by decide,
    (auth_failure_nondistinguishable evW bcW storeW "user@nextmail.com" "123456").2.2.2
      userW (by decide) (by decide) (by decide)⟩⟩

/-- Claim C10: the authenticator's minimum password length is exactly 6 —
a password of fewer than 6 characters makes `authorize` return the
invalid-credentials outcome with zero store lookups, while the shape check
admits any password of 6 or more characters (it then reduces to the email
syntax test alone). -/
theorem password_min_length_is_six (emailValid : String → Bool)
    (bcompare : String → String → Bool) (storeUp : Bool) (store : List User)
    (email password : String) :
    (password.length < 6 →
        authorize emailValid bcompare storeUp store email password
          = (AuthorizeOutcome.ok none, 0)
      ∧ authenticate emailValid bcompare storeUp store email password
          = AuthOutcome.invalidCredentials)
  ∧ (6 ≤ password.length →
        credentialsShapeOk emailValid email password = emailValid email) := by
  constructor
  · intro hlen
    have hs : credentialsShapeOk emailValid email password = false := by
      unfold credentialsShapeOk passwordMinLength
      simp [Nat.not_le.mpr hlen]
    constructor
    · unfold authorize
      simp [hs]
    · unfold authenticate authorize
      simp [hs]
  · intro hlen
    unfold credentialsShapeOk passwordMinLength
    simp [hlen]

/-- Witness for C10: the 5-character password `12345` is rejected with no
store lookup even though its email is well-formed, and with the 6-character
password `123456` the shape check reduces to the email test. -/
theorem password_min_length_is_six_witness :
    ("12345".length < 6
      ∧ authorize evW bcW true storeW "user@nextmail.com" "12345"
          = (AuthorizeOutcome.ok none, 0)
      ∧ authenticate evW bcW true storeW "user@nextmail.com" "12345"
          = AuthOutcome.invalidCredentials)
  ∧ (6 ≤ "123456".length
      ∧ credentialsShapeOk evW "user@nextmail.com" "123456"
          = evW "user@nextmail.com") :=
  ⟨⟨by decide,
    ((password_min_length_is_six evW bcW true storeW "user@nextmail.com" "12345").1
      (by decide)).1,
    ((password_min_length_is_six evW bcW true storeW "user@nextmail.com" "12345").1
      (by decide)).2⟩,
   ⟨by decide,
    (password_min_length_is_six evW bcW true storeW "user@nextmail.com" "123456").2
      (by decide)⟩⟩

end Dashboard
namespace Dashboard

/-! ## Claims about the mutation actions -/

/-- Claim C5: for every validated create input, a failing insert makes
`createInvoice` return the generic database-error message with no cache
invalidation and no navigation, while on a successful insert the effects are
exactly the cache invalidation followed by the redirect to the list view. -/
theorem create_no_navigation_without_persistence (db : DB)
    (newId nowISO : String) (f : InvoiceForm) (d : ParsedInvoice)
    (h : safeParseInvoice f = ParseOutcome.success d) :
    createInvoice db false newId nowISO f
      = (db, [], ActionResult.returned none
          (some "Database Error: Failed to Create Invoice"))
  ∧ (createInvoice db true newId nowISO f).2
      = ([Effect.revalidate "/dashboard/invoices",
          Effect.redirectTo "/dashboard/invoices"],
         ActionResult.navigated "/dashboard/invoices") := by
  unfold createInvoice
  simp [h]

/-- Witness for C5 at the fixture form `f54`. -/
theorem create_no_navigation_without_persistence_witness :
    safeParseInvoice f54 = ParseOutcome.success d54
  ∧ (createInvoice ⟨[rowW]⟩ false "inv-2" isoW f54
      = (⟨[rowW]⟩, [], ActionResult.returned none
          (some "Database Error: Failed to Create Invoice"))
    ∧ (createInvoice ⟨[rowW]⟩ true "inv-2" isoW f54).2
      = ([Effect.revalidate "/dashboard/invoices",
          Effect.redirectTo "/dashboard/invoices"],
         ActionResult.navigated "/dashboard/invoices")) :=
  ⟨by decide,
   create_no_navigation_without_persistence ⟨[rowW]⟩ "inv-2" isoW f54 d54 (by decide)⟩

/-- Claim C6: an input whose amount does not coerce to a number strictly
greater than 0 makes both `createInvoice` and `updateInvoice` return a
validation-error map with a non-empty amount entry, leaving the store
untouched and performing no effects. -/
theorem invalid_amount_short_circuits (db : DB) (storeOk : Bool)
    (newId nowISO id : String) (f : InvoiceForm)
    (h : ∀ q : ℚ, jsNumber f.amount = some q → ¬ 0 < q) :
    (fieldErrorsOf f).amount ≠ []
  ∧ createInvoice db storeOk newId nowISO f
      = (db, [], ActionResult.returned (some (fieldErrorsOf f))
          (some "Missing Fields. Failed to Create Invoice"))
  ∧ updateInvoice db storeOk id f
      = (db, [], ActionResult.returned (some (fieldErrorsOf f))
          (some "Missing Fields. Failed to Update Invoice.")) := by
  have hparse : safeParseInvoice f = ParseOutcome.failure (fieldErrorsOf f) := by
    unfold safeParseInvoice
    cases hq : jsNumber f.amount with
    | none => cases f.customerId <;> cases parseStatus f.status <;> simp
    | some q =>
        cases f.customerId <;> cases parseStatus f.status <;> simp [h q hq]
  refine ⟨?_, ?_, ?_⟩
  · unfold fieldErrorsOf amountErrors
    cases hq : jsNumber f.amount with
    | none => simp
    | some q => simp [h q hq]
  · unfold createInvoice
    simp [hparse]
  · unfold updateInvoice
    simp [hparse]

/-- Witness for C6: amount `-5` (which coerces to the negative rational
`-5`) is rejected by both actions without a store write. -/
theorem invalid_amount_short_circuits_witness :
    (∀ q : ℚ, jsNumber (InvoiceForm.amount ⟨some "c1", some "-5", some "pending"⟩)
        = some q → ¬ 0 < q)
  ∧ (fieldErrorsOf ⟨some "c1", some "-5", some "pending"⟩).amount ≠ []
  ∧ createInvoice ⟨[rowW]⟩ true "inv-2" isoW ⟨some "c1", some "-5", some "pending"⟩
      = (⟨[rowW]⟩, [], ActionResult.returned
          (some (fieldErrorsOf ⟨some "c1", some "-5", some "pending"⟩))
          (some "Missing Fields. Failed to Create Invoice"))
  ∧ updateInvoice ⟨[rowW]⟩ true "i1" ⟨some "c1", some "-5", some "pending"⟩
      = (⟨[rowW]⟩, [], ActionResult.returned
          (some (fieldErrorsOf ⟨some "c1", some "-5", some "pending"⟩))
          (some "Missing Fields. Failed to Update Invoice.")) := by
  have h : ∀ q : ℚ,
      jsNumber (InvoiceForm.amount ⟨some "c1", some "-5", some "pending"⟩)
        = some q → ¬ 0 < q := by
    intro q hq
    have : q = -(Rat.divInt 5 1) := by
      have heval : jsNumber (some "-5") = some (-(Rat.divInt 5 1)) := by decide
      simp only [heval] at hq
      exact (Option.some.injEq _ _ ▸ hq).symm
    rw [this]
    decide
  have main := invalid_amount_short_circuits ⟨[rowW]⟩ true "inv-2" isoW "i1"
    ⟨some "c1", some "-5", some "pending"⟩ h
  exact ⟨h, main.1, main.2.1, main.2.2⟩

/-- The `WHERE id = ...` row map is the identity when no row matches. -/
theorem map_if_id_of_no_match {l : List InvoiceRow} {id : String}
    (g : InvoiceRow → InvoiceRow) (hid : ∀ r ∈ l, r.id ≠ id) :
    (l.map fun r => if r.id == id then g r else r) = l := by
  induction l with
  | nil => rfl
  | cons a t ih =>
      have ha : (a.id == id) = false :=
        beq_eq_false_iff_ne.mpr (hid a (List.mem_cons_self a t))
      simp only [List.map_cons, ha, Bool.false_eq_true, if_false,
        ih fun r hr => hid r (List.mem_cons_of_mem a hr)]

/-- Claim C7: when no stored row matches the id, a valid `updateInvoice`
changes no row and still completes the full success path — cache
invalidation followed by navigation — indistinguishable from a matching
update. -/
theorem update_unmatched_id_silent_noop (db : DB) (id : String)
    (f : InvoiceForm) (d : ParsedInvoice)
    (h : safeParseInvoice f = ParseOutcome.success d)
    (hid : ∀ r ∈ db.invoices, r.id ≠ id) :
    updateInvoice db true id f
      = (db, [Effect.revalidate "/dashboard/invoices",
              Effect.redirectTo "/dashboard/invoices"],
         ActionResult.navigated "/dashboard/invoices") := by
  have hmap := map_if_id_of_no_match
    (fun r => applyUpdate r d.customerId (d.amount * 100) d.status) hid
  unfold updateInvoice
  simp only [h, hmap, if_true]

/-- Witness for C7: updating the absent id `i2` on a one-row store leaves
the store unchanged and navigates as on success. -/
theorem update_unmatched_id_silent_noop_witness :
    safeParseInvoice f12 = ParseOutcome.success d12
  ∧ (∀ r ∈ (⟨[rowW]⟩ : DB).invoices, r.id ≠ "i2")
  ∧ updateInvoice ⟨[rowW]⟩ true "i2" f12
      = (⟨[rowW]⟩, [Effect.revalidate "/dashboard/invoices",
                    Effect.redirectTo "/dashboard/invoices"],
         ActionResult.navigated "/dashboard/invoices") :=
  ⟨by decide, by decide,
   update_unmatched_id_silent_noop ⟨[rowW]⟩ "i2" f12 d12 (by decide) (by decide)⟩

/-- Claim C8: a successful valid update modifies only the `customer_id`,
`amount` and `status` fields of the rows matching the id; every row keeps
its `id` and `date`, and every non-matching row is entirely unchanged. -/
theorem update_frame_effect (db : DB) (id : String) (f : InvoiceForm)
    (d : ParsedInvoice) (h : safeParseInvoice f = ParseOutcome.success d) :
    List.Forall₂ (fun r r' : InvoiceRow =>
        r'.id = r.id ∧ r'.date = r.date
      ∧ (r.id ≠ id → r' = r)
      ∧ (r.id = id → r'.customer_id = d.customerId ∧ r'.amount = d.amount * 100
            ∧ r'.status = d.status))
      db.invoices (updateInvoice db true id f).1.invoices := by
  unfold updateInvoice
  simp only [h]
  refine List.forall₂_map_right_iff.mpr (List.forall₂_same.mpr fun r hr => ?_)
  by_cases hid : r.id = id
  · simp [hid, applyUpdate]
  · simp [beq_eq_false_iff_ne.mpr hid, hid]

/-- Witness for C8 on a one-row store whose row matches the updated id. -/
theorem update_frame_effect_witness :
    safeParseInvoice f12 = ParseOutcome.success d12
  ∧ List.Forall₂ (fun r r' : InvoiceRow =>
        r'.id = r.id ∧ r'.date = r.date
      ∧ (r.id ≠ "i1" → r' = r)
      ∧ (r.id = "i1" → r'.customer_id = d12.customerId
            ∧ r'.amount = d12.amount * 100 ∧ r'.status = d12.status))
      (⟨[rowW]⟩ : DB).invoices (updateInvoice ⟨[rowW]⟩ true "i1" f12).1.invoices :=
  ⟨by decide, update_frame_effect ⟨[rowW]⟩ "i1" f12 d12 (by decide)⟩

end Dashboard
namespace Dashboard

/-- Counterexample to C2 as stated: the valid input with amount `0.125`
(which coerces to the positive rational `1/8`) is persisted with stored
amount `25/2 = 0.125 * 100`, which differs from `round(0.125 * 100) = 13`;
the action applies no rounding. -/
theorem create_stores_rounded_amount_counterexample :
    jsNumber (some "0.125") = some (Rat.divInt 1 8)
  ∧ (0 : ℚ) < Rat.divInt 1 8
  ∧ (createInvoice ⟨[]⟩ true "inv-1" "2026-10-12T00:00:00.000Z"
        ⟨some "c1", some "0.125", some "pending"⟩).1.invoices.map InvoiceRow.amount
      = [Rat.divInt 25 2]
  ∧ (Rat.divInt 25 2 : ℚ) ≠ (round (Rat.divInt 1 8 * 100) : ℚ) := by
  refine ⟨by decide, by decide, ?_, ?_⟩
  · have h : safeParseInvoice ⟨some "c1", some "0.125", some "pending"⟩
        = ParseOutcome.success ⟨"c1", Rat.divInt 1 8, Status.pending⟩ := by decide
    unfold createInvoice
    simp [h]
    norm_num [Rat.divInt_eq_div]
  · norm_num [Rat.divInt_eq_div, round_eq]

/-- Claim C2 as amended: for every valid create input, `createInvoice`
persists one new row whose stored amount is exactly `amount * 100` — with no
rounding applied by the action — and whose date is the date-only part of the
current ISO timestamp; whenever `amount * 100` is an integer (in particular
for any amount with at most two decimal places, such as `54.37`), the stored
amount coincides with `round(amount * 100)`. -/
theorem create_persists_exact_minor_units (db : DB) (newId nowISO : String)
    (f : InvoiceForm) (d : ParsedInvoice)
    (h : safeParseInvoice f = ParseOutcome.success d) :
    (createInvoice db true newId nowISO f).1.invoices
      = db.invoices
        ++ [⟨newId, d.customerId, d.amount * 100, d.status, dateOnly nowISO⟩]
  ∧ (∀ n : ℤ, d.amount * 100 = (n : ℚ) →
        d.amount * 100 = (round (d.amount * 100) : ℚ)) := by
  constructor
  · unfold createInvoice
    simp [h]
  · rintro n hn
    rw [hn, round_intCast]

/-- Witness for the amended C2: creating with amount `54.37` appends a row
whose stored amount is exactly `5437` and whose date is the date part of the
fixture timestamp. -/
theorem create_persists_exact_minor_units_witness :
    safeParseInvoice f54 = ParseOutcome.success d54
  ∧ (createInvoice ⟨[]⟩ true "inv-1" isoW f54).1.invoices
      = ([] : List InvoiceRow)
        ++ [⟨"inv-1", d54.customerId, d54.amount * 100, d54.status, dateOnly isoW⟩]
  ∧ d54.amount * 100 = (5437 : ℚ)
  ∧ dateOnly isoW = "2026-10-12" :=
  ⟨by decide,
   (create_persists_exact_minor_units ⟨[]⟩ "inv-1" isoW f54 d54 (by decide)).1,
   by
     show Rat.divInt 5437 100 * 100 = (5437 : ℚ)
     norm_num [Rat.divInt_eq_div],
   by decide⟩

/-- Counterexample to C4 as stated: on a store failure, `deleteInvoice`
performs no effects at all — in particular no cache invalidation of the
invoices list view — because the `revalidatePath` call sits after the
`DELETE` inside the same `try` block. -/
theorem delete_always_revalidates_counterexample :
    deleteInvoice ⟨[rowW]⟩ false "i1"
      = (⟨[rowW]⟩, [], ActionResult.returned none
          (some "Database Error: Failed to Delete Invoice."))
  ∧ Effect.revalidate "/dashboard/invoices"
      ∉ (deleteInvoice (⟨[rowW]⟩ : DB) false "i1").2.1 := by
  constructor
  · unfold deleteInvoice
    simp
  · unfold deleteInvoice
    simp

/-- Claim C4 as amended: `deleteInvoice` attempts the cache invalidation of
the invoices list view on the success path only; on a store failure it
performs no cache invalidation and returns a generic error message rather
than raising. -/
theorem delete_error_handling (db : DB) (id : String) :
    (deleteInvoice db true id).2.1 = [Effect.revalidate "/dashboard/invoices"]
  ∧ (deleteInvoice db true id).2.2
      = ActionResult.returned none (some "Deleted Invoice")
  ∧ deleteInvoice db false id
      = (db, [], ActionResult.returned none
          (some "Database Error: Failed to Delete Invoice.")) := by
  unfold deleteInvoice
  simp

end Dashboard
